import Mathlib

/-!
Shallow embedding of the bitki-secim-asistani client (src/src/types.ts:
the type declarations and the App component). The data model mirrors the
TypeScript interfaces; the event handlers and the geocode effect are
embedded as pure state transformers, with each asynchronous fetch split
into its synchronous start part and a finish part parameterised by the
outcome of the network call.
-/

namespace Bitki

/-- Mirrors `type SunExposure = "full_sun" | "partial_shade" | "shade"`. -/
inductive SunExposure
  | full_sun
  | partial_shade
  | shade
deriving DecidableEq, Repr

/-- Mirrors `type SoilType = "clay" | "sandy" | "loam" | "well_drained" | "organic"`. -/
inductive SoilType
  | clay
  | sandy
  | loam
  | well_drained
  | organic
deriving DecidableEq, Repr

/-- Mirrors `type WaterPreference = "low" | "medium" | "high"`. -/
inductive WaterPreference
  | low
  | medium
  | high
deriving DecidableEq, Repr

/-- Mirrors `type MaintenanceLevel = "low" | "medium" | "high"`. -/
inductive MaintenanceLevel
  | low
  | medium
  | high
deriving DecidableEq, Repr

/-- Mirrors `type WindExposure = "exposed" | "sheltered"`. -/
inductive WindExposure
  | exposed
  | sheltered
deriving DecidableEq, Repr

/-- Mirrors `interface RecommendationRequest` (types.ts lines 7-15). -/
structure RecommendationRequest where
  city : String
  country : String
  sun_exposure : SunExposure
  soil_type : SoilType
  watering_preference : WaterPreference
  maintenance_preference : MaintenanceLevel
  wind_exposure : WindExposure
deriving DecidableEq, Repr

/-- Mirrors `interface PlantScoreBreakdown` (types.ts lines 17-24).
Scores are display-only numbers; embedded as integers since no claim
involves fractional arithmetic on them. -/
structure PlantScoreBreakdown where
  sun : Int
  soil : Int
  water : Int
  maintenance : Int
  wind : Int
  climate : Int
deriving DecidableEq, Repr

/-- Mirrors `interface PlantRecommendation` (types.ts lines 26-35). -/
structure PlantRecommendation where
  plant_id : Int
  name_tr : String
  name_latin : String
  suitability_status : String
  total_score : Int
  cost_level : String
  maintenance_summary : String
  breakdown : PlantScoreBreakdown
deriving DecidableEq, Repr

/-- Mirrors `interface AIRecommendationRequest extends RecommendationRequest`
with optional `top_n` and `language` (types.ts lines 37-40). -/
structure AIRecommendationRequest extends RecommendationRequest where
  top_n : Option Nat
  language : Option String
deriving DecidableEq, Repr

/-- Mirrors `interface AIChosenPlant` (types.ts lines 42-46). -/
structure AIChosenPlant where
  plant_id : Int
  reasoning : String
  source : String
deriving DecidableEq, Repr

/-- Mirrors `interface AIRecommendationResponse` (types.ts lines 48-51). -/
structure AIRecommendationResponse where
  rule_based_results : List PlantRecommendation
  ai_best : Option AIChosenPlant
deriving DecidableEq, Repr

/-- The `initialForm` constant of the App component. -/
def initialForm : RecommendationRequest :=
  { city := ""
    country := ""
    sun_exposure := .full_sun
    soil_type := .well_drained
    watering_preference := .medium
    maintenance_preference := .low
    wind_exposure := .exposed }

/-- Map coordinates (`LatLngTuple`). The clicked coordinates are opaque to
all of the logic embedded here (they are only interpolated into the geocode
URL), so they are represented by an arbitrary pair of integers. -/
def Coord : Type := Int × Int

/-- Status of one reverse-geocode fetch, tracking the lifecycle of the
`AbortController` created by one run of the geocode `useEffect`. -/
inductive ReqStatus
  | unstarted
  | inflight
  | aborted
  | done
deriving DecidableEq, Repr

/-- The React state of the App component (the ten `useState` hooks),
extended with bookkeeping for the geocode requests: `nextGeoId` counts the
effect runs that started a fetch and `geoStatus i` is the lifecycle status
of the fetch started by run `i`. -/
structure AppState where
  form : RecommendationRequest
  loading : Bool
  error : Option String
  results : List PlantRecommendation
  selectedPosition : Option Coord
  locationLoading : Bool
  locationError : Option String
  aiLoading : Bool
  aiError : Option String
  aiResult : Option AIRecommendationResponse
  nextGeoId : Nat
  geoStatus : Nat → ReqStatus

/-- The initial values of the ten `useState` hooks; no geocode fetch has
been started. -/
def initialState : AppState :=
  { form := initialForm
    loading := false
    error := none
    results := []
    selectedPosition := none
    locationLoading := false
    locationError := none
    aiLoading := false
    aiError := none
    aiResult := none
    nextGeoId := 0
    geoStatus := fun _ => .unstarted }

/-- One form-field edit, as performed by `handleChange`: the `name` of the
changed input selects the key, the value replaces that key only. -/
inductive FormEdit
  | setCity (v : String)
  | setCountry (v : String)
  | setSun (v : SunExposure)
  | setSoil (v : SoilType)
  | setWatering (v : WaterPreference)
  | setMaintenance (v : MaintenanceLevel)
  | setWind (v : WindExposure)
deriving DecidableEq, Repr

/-- Mirrors `handleChange`: `setForm((prev) => ({ ...prev, [name]: value }))`. -/
def applyEdit (f : RecommendationRequest) : FormEdit → RecommendationRequest
  | .setCity v => { f with city := v }
  | .setCountry v => { f with country := v }
  | .setSun v => { f with sun_exposure := v }
  | .setSoil v => { f with soil_type := v }
  | .setWatering v => { f with watering_preference := v }
  | .setMaintenance v => { f with maintenance_preference := v }
  | .setWind v => { f with wind_exposure := v }

/-- A sequence of user edits applied in order. -/
def applyEdits (f : RecommendationRequest) (es : List FormEdit) : RecommendationRequest :=
  es.foldl applyEdit f

/-- Outcome of one `fetchRecommendations` call as seen by its caller: the
function throws on any non-2xx status and on network failure, so both
collapse to the single failure case. -/
inductive FetchOutcome
  | ok (results : List PlantRecommendation)
  | err
deriving Repr

/-- Outcome of one `fetchAIRecommendation` call as seen by its caller. -/
inductive AIFetchOutcome
  | ok (data : AIRecommendationResponse)
  | err
deriving Repr

/-- The fixed error message set by `handleSubmit` and the auto-fetch. -/
def recErrorMsg : String := "Öneriler alınırken bir hata oluştu."

/-- The fixed error message set by `handleAIRecommendation`. -/
def aiErrorMsg : String := "AI önerisi alınamadı. Lütfen tekrar deneyin."

/-- Synchronous part of `handleSubmit` before the await (lines 174-176):
`setLoading(true); setError(null); setAiResult(null)`. -/
def handleSubmitStart (s : AppState) : AppState :=
  { s with loading := true, error := none, aiResult := none }

/-- Continuation of `handleSubmit` once `fetchRecommendations` settles:
on success `setResults(data.results)`, on failure `setError(...)`, and in
either case the finally clause `setLoading(false)`. -/
def handleSubmitFinish (s : AppState) : FetchOutcome → AppState
  | .ok rs => { s with results := rs, loading := false }
  | .err => { s with error := some recErrorMsg, loading := false }

/-- The payload built by `handleAIRecommendation` (lines 191-195):
`{ ...form, top_n: 5, language: "tr" }`. -/
def aiPayload (form : RecommendationRequest) : AIRecommendationRequest :=
  { toRecommendationRequest := form, top_n := some 5, language := some "tr" }

/-- Synchronous part of `handleAIRecommendation` before the await:
`setAiLoading(true); setAiError(null)`. -/
def handleAIStart (s : AppState) : AppState :=
  { s with aiLoading := true, aiError := none }

/-- Continuation of `handleAIRecommendation` once the AI fetch settles:
on success `setAiResult(data); setResults(data.rule_based_results)`, on
failure `setAiError(...)`; finally `setAiLoading(false)`. -/
def handleAIFinish (s : AppState) : AIFetchOutcome → AppState
  | .ok data => { s with aiResult := some data, results := data.rule_based_results,
                         aiLoading := false }
  | .err => { s with aiError := some aiErrorMsg, aiLoading := false }

/-- The `disabled` attribute of the AI button (line 587):
`aiLoading || !form.city || !form.country` — a JavaScript string is falsy
exactly when it is empty. -/
def aiButtonDisabled (s : AppState) : Bool :=
  s.aiLoading || s.form.city.isEmpty || s.form.country.isEmpty

/-- The chosen-plant label rendered for the AI best pick (lines 741-748):
`results.find((p) => p.plant_id === ai_best.plant_id)` with the fallback
label when no entry matches. -/
def chosenPlantLabel (results : List PlantRecommendation) (best : AIChosenPlant) : String :=
  match results.find? (fun p => p.plant_id == best.plant_id) with
  | some chosen => chosen.name_tr ++ " (" ++ chosen.name_latin ++ ")"
  | none => "Bilinmeyen bitki"

/-- The `address` object of a Nominatim reverse-geocode response. Each
field is optional; `data.address || {}` makes a missing address behave as
all-absent fields. In JavaScript an absent field and an empty string are
both falsy under `||`, so absence is read off through `Option.getD ""`. -/
structure NominatimAddress where
  state : Option String
  city : Option String
  province : Option String
  region : Option String
  country : Option String
deriving DecidableEq, Repr

/-- JavaScript `a || b` on strings: `b` when `a` is the empty string. -/
def jsOr (a b : String) : String :=
  if a = "" then b else a

/-- Modelled from the claim wording for the province priority: the first
non-empty string of a candidate list, or the empty string when all are
empty. Used only as the specification side of the refinement theorem for
the priority order. -/
def firstNonEmpty : List String → String
  | [] => ""
  | x :: xs => if x = "" then firstNonEmpty xs else x

/-- The `province` value computed by the geocode then-handler (lines
230-235): `address.state || address.city || address.province ||
address.region || ""`. -/
def provinceOf (a : NominatimAddress) : String :=
  jsOr (a.state.getD "") (jsOr (a.city.getD "") (jsOr (a.province.getD "")
    (jsOr (a.region.getD "") "")))

/-- The `country` value computed by the geocode then-handler (line 236):
`address.country || ""`. -/
def countryOf (a : NominatimAddress) : String :=
  jsOr (a.country.getD "") ""

/-- The `setForm` merge applied on a successful geocode resolution (lines
246-250): `{ ...prev, city: province || prev.city, country: country ||
prev.country }`, where `prev` is the form at the moment the update is
applied. -/
def mergeLocation (prev : RecommendationRequest) (province country : String) :
    RecommendationRequest :=
  { prev with city := jsOr province prev.city, country := jsOr country prev.country }

/-- The request body built inside the `setTimeout` callback (lines
253-258): `{ ...form, city: province || form.city, country: country ||
form.country }`, where `form` is the value captured by the effect closure —
the form state of the render that ran the effect, not the state after the
`setForm` merge. -/
def autoFetchBody (capturedForm : RecommendationRequest) (province country : String) :
    RecommendationRequest :=
  { capturedForm with
    city := jsOr province capturedForm.city
    country := jsOr country capturedForm.country }

/-- The fixed message set when the geocode response carries no usable
place or country field (lines 239-241). -/
def manualEntryMsg : String :=
  "Could not detect city from this point, please type it manually."

/-- The fixed message set when the geocode fetch fails for a reason other
than cancellation (lines 278-280). -/
def geoUnreachableMsg : String :=
  "Could not reach location service. Please type city manually."

/-- The synchronous state changes of the geocode then-handler on a
response body, together with the finally clause `setLocationLoading(false)`
(lines 228-250, 282-284): when neither a province nor a country was found
the manual-entry error is set and the form is untouched; otherwise the
merge is applied to the form. The delayed auto-fetch that the success
branch schedules is embedded separately (`autoFetchStart`,
`autoFetchFinish`, `autoFetchBody`). -/
def geocodeThen (s : AppState) (a : NominatimAddress) : AppState :=
  let province := provinceOf a
  let country := countryOf a
  if province = "" ∧ country = "" then
    { s with locationError := some manualEntryMsg, locationLoading := false }
  else
    { s with form := mergeLocation s.form province country, locationLoading := false }

/-- Synchronous part of the timer callback before the awaitable fetch
(lines 261-263): `setLoading(true); setError(null); setAiResult(null)`. -/
def autoFetchStart (s : AppState) : AppState :=
  { s with loading := true, error := none, aiResult := none }

/-- Continuation of the timer callback once `fetchRecommendations`
settles (lines 264-273): identical in shape to `handleSubmitFinish`. -/
def autoFetchFinish (s : AppState) : FetchOutcome → AppState
  | .ok rs => { s with results := rs, loading := false }
  | .err => { s with error := some recErrorMsg, loading := false }

/-- A map click on `pos` (the `LocationClickMarker` `onChange` →
`setSelectedPosition` → geocode effect re-run). React first runs the
cleanup of the previous effect, which calls `controller.abort()` on the
controller of the latest started fetch; then the new effect body runs:
`setLocationLoading(true); setLocationError(null)` and a new fetch is
started. If the aborted fetch was still in flight, its promise chain
rejects with `AbortError` after the effect body has run: the catch branch
returns without reporting, but the finally clause still runs
`setLocationLoading(false)`. -/
def geoSelect (s : AppState) (pos : Coord) : AppState :=
  let hadLive : Bool := decide (0 < s.nextGeoId ∧ s.geoStatus (s.nextGeoId - 1) = .inflight)
  { s with
    selectedPosition := some pos
    locationLoading := !hadLive
    locationError := none
    nextGeoId := s.nextGeoId + 1
    geoStatus := fun i =>
      if i = s.nextGeoId then .inflight
      else if i + 1 = s.nextGeoId ∧ s.geoStatus i = .inflight then .aborted
      else s.geoStatus i }

/-- Outcome of one reverse-geocode fetch: a parsed JSON body (possibly
without an address object — `data.address || {}` is all-absent fields), or
a network/parse failure. Cancellation is not an outcome: an aborted fetch
never delivers its response to the handler. -/
inductive GeoOutcome
  | ok (a : NominatimAddress)
  | neterr
deriving Repr

/-- Record that the fetch of request `id` has settled. -/
def markDone (s : AppState) (id : Nat) : AppState :=
  { s with geoStatus := fun i => if i = id then .done else s.geoStatus i }

/-- Arrival of the network response for geocode request `id`. Only a
request that is still in flight runs its handler chain; a cancelled
request has already rejected with `AbortError` at abort time, so a late
response for it changes nothing. -/
def geoRespond (s : AppState) (id : Nat) (o : GeoOutcome) : AppState :=
  if s.geoStatus id = .inflight then
    match o with
    | .ok a => geocodeThen (markDone s id) a
    | .neterr =>
      { markDone s id with
        locationError := some geoUnreachableMsg
        locationLoading := false }
  else s

/-- Events of the geocode subsystem: map clicks and response arrivals. -/
inductive GeoEvent
  | select (pos : Coord)
  | respond (id : Nat) (o : GeoOutcome)

/-- One step of the geocode subsystem. -/
def geoStep (s : AppState) : GeoEvent → AppState
  | .select pos => geoSelect s pos
  | .respond id o => geoRespond s id o

/-- The state after a sequence of geocode events from the initial state. -/
def runGeo (tr : List GeoEvent) : AppState :=
  tr.foldl geoStep initialState

/-- Invariant of the geocode subsystem: only the most recently started
fetch can still be in flight. -/
def GeoInv (s : AppState) : Prop :=
  ∀ i, s.geoStatus i = .inflight → i + 1 = s.nextGeoId

/-! ## Theorems -/

/-- Helper: the geocode then-handler on a successful resolution. -/
theorem geocodeThen_success (s : AppState) (a : NominatimAddress)
    (h : ¬(provinceOf a = "" ∧ countryOf a = "")) :
    geocodeThen s a =
      { s with form := mergeLocation s.form (provinceOf a) (countryOf a),
               locationLoading := false } := by
  simp only [geocodeThen]
  rw [if_neg h]

/-- Helper: the geocode then-handler never touches the request
bookkeeping. -/
theorem geocodeThen_geoStatus (s : AppState) (a : NominatimAddress) :
    (geocodeThen s a).geoStatus = s.geoStatus ∧
      (geocodeThen s a).nextGeoId = s.nextGeoId := by
  simp only [geocodeThen]
  split <;> exact ⟨rfl, rfl⟩

/-- Helper: the invariant holds initially. -/
theorem geoInv_initial : GeoInv initialState := by
  intro i h
  exact absurd h (by simp [initialState])

/-- Helper: a map click preserves the invariant. -/
theorem geoInv_select (s : AppState) (pos : Coord) (hs : GeoInv s) :
    GeoInv (geoSelect s pos) := by
  intro i h
  simp only [geoSelect] at h ⊢
  split at h
  · next heq => omega
  · split at h
    · exact absurd h (by decide)
    · next h1 h2 => exact absurd ⟨hs i h, h⟩ h2

/-- Helper: a response arrival preserves the invariant. -/
theorem geoInv_respond (s : AppState) (id : Nat) (o : GeoOutcome) (hs : GeoInv s) :
    GeoInv (geoRespond s id o) := by
  unfold geoRespond
  split
  · cases o with
    | ok a =>
      intro i h
      rw [(geocodeThen_geoStatus _ _).1] at h
      rw [(geocodeThen_geoStatus _ _).2]
      simp only [markDone] at h ⊢
      split at h
      · exact absurd h (by decide)
      · exact hs i h
    | neterr =>
      intro i h
      simp only [markDone] at h ⊢
      split at h
      · exact absurd h (by decide)
      · exact hs i h
  · exact hs

/-- Helper: the invariant holds along every trace. -/
theorem geoInv_foldl (tr : List GeoEvent) (s : AppState) (hs : GeoInv s) :
    GeoInv (tr.foldl geoStep s) := by
  induction tr generalizing s with
  | nil => exact hs
  | cons e rest ih =>
    refine ih _ ?_
    cases e with
    | select pos => exact geoInv_select s pos hs
    | respond id o => exact geoInv_respond s id o hs

/-- Helper: the invariant holds in every reachable state. -/
theorem geoInv_run (tr : List GeoEvent) : GeoInv (runGeo tr) :=
  geoInv_foldl tr initialState geoInv_initial

/-- C3: for every form state, the payload of the AI request equals the
current form extended with exactly `top_n = 5` and `language = "tr"`. -/
theorem aiPayload_constant_fields (form : RecommendationRequest) :
    (aiPayload form).top_n = some 5 ∧ (aiPayload form).language = some "tr" ∧
    (aiPayload form).toRecommendationRequest = form :=
  ⟨rfl, rfl, rfl⟩

/-- C4: when a plain recommendation submission fails, the error flag is
set to the fixed localized message and the previously displayed result
list is left unchanged; results are replaced only by a success. -/
theorem handleSubmit_failure_atomic (s : AppState) :
    (handleSubmitFinish (handleSubmitStart s) .err).error = some recErrorMsg ∧
    (handleSubmitFinish (handleSubmitStart s) .err).results = s.results ∧
    ∀ rs, (handleSubmitFinish (handleSubmitStart s) (.ok rs)).results = rs :=
  ⟨rfl, rfl, fun _ => rfl⟩

/-- C5: the AI button is disabled exactly while a prior AI request is in
flight, or the city field is empty, or the country field is empty. -/
theorem aiButton_disabled_iff (s : AppState) :
    aiButtonDisabled s = true ↔
      (s.aiLoading = true ∨ s.form.city = "" ∨ s.form.country = "") := by
  simp [aiButtonDisabled, String.isEmpty_iff, or_assoc]

/-- Witness for C5 at a concrete state with an empty city field. -/
theorem aiButton_disabled_iff_witness :
    aiButtonDisabled initialState = true :=
  (aiButton_disabled_iff initialState).mpr (Or.inr (Or.inl rfl))

/-- C6: every issuance of a plain recommendation request — the manual
submit or the geocode-triggered auto-fetch — clears the previously shown
AI result, and after a success of that request no AI result is shown. -/
theorem plainRequest_clears_aiResult (s : AppState) (rs : List PlantRecommendation) :
    (handleSubmitStart s).aiResult = none ∧
    (handleSubmitFinish (handleSubmitStart s) (.ok rs)).aiResult = none ∧
    (autoFetchStart s).aiResult = none ∧
    (autoFetchFinish (autoFetchStart s) (.ok rs)).aiResult = none :=
  ⟨rfl, rfl, rfl, rfl⟩

/-- C7: a geocode response whose address has empty or absent `state`,
`city`, `province`, `region` and `country` sets the location error to the
manual-entry message and does not mutate the form. -/
theorem geocode_emptyAddress_manualError (s : AppState) (a : NominatimAddress)
    (hs : a.state.getD "" = "") (hc : a.city.getD "" = "")
    (hp : a.province.getD "" = "") (hr : a.region.getD "" = "")
    (hco : a.country.getD "" = "") :
    (geocodeThen s a).locationError = some manualEntryMsg ∧
    (geocodeThen s a).form = s.form := by
  have hprov : provinceOf a = "" := by simp [provinceOf, jsOr, hs, hc, hp, hr]
  have hcountry : countryOf a = "" := by simp [countryOf, jsOr, hco]
  constructor <;> simp [geocodeThen, hprov, hcountry]

/-- Witness for C7 at the all-absent address. -/
theorem geocode_emptyAddress_manualError_witness :
    (geocodeThen initialState ⟨none, none, none, none, none⟩).locationError =
        some manualEntryMsg ∧
    (geocodeThen initialState ⟨none, none, none, none, none⟩).form =
        initialState.form :=
  geocode_emptyAddress_manualError initialState ⟨none, none, none, none, none⟩
    rfl rfl rfl rfl rfl

/-- C8: on a successful geocode resolution each of the two location
fields is overwritten only when its resolved value is non-empty and kept
otherwise, and no other form field changes. -/
theorem geocode_merge_keeps_empty_fields (s : AppState) (a : NominatimAddress)
    (h : ¬(provinceOf a = "" ∧ countryOf a = "")) :
    (geocodeThen s a).form.city =
      (if provinceOf a = "" then s.form.city else provinceOf a) ∧
    (geocodeThen s a).form.country =
      (if countryOf a = "" then s.form.country else countryOf a) ∧
    (geocodeThen s a).form.sun_exposure = s.form.sun_exposure ∧
    (geocodeThen s a).form.soil_type = s.form.soil_type ∧
    (geocodeThen s a).form.watering_preference = s.form.watering_preference ∧
    (geocodeThen s a).form.maintenance_preference = s.form.maintenance_preference ∧
    (geocodeThen s a).form.wind_exposure = s.form.wind_exposure := by
  rw [geocodeThen_success s a h]
  refine ⟨?_, ?_, rfl, rfl, rfl, rfl, rfl⟩ <;> simp [mergeLocation, jsOr]

/-- Witness for C8: a response with only the country populated updates
the country and leaves the city unchanged. -/
theorem geocode_merge_keeps_empty_fields_witness :
    (geocodeThen initialState ⟨none, none, none, none, some "Turkey"⟩).form.city =
        initialState.form.city ∧
    (geocodeThen initialState ⟨none, none, none, none, some "Turkey"⟩).form.country =
        "Turkey" := by
  have h := geocode_merge_keeps_empty_fields initialState
    ⟨none, none, none, none, some "Turkey"⟩ (by decide)
  exact ⟨by rw [h.1]; decide, by rw [h.2.1]; decide⟩

/-- C9: when the AI best pick matches no plant in the displayed result
list, the rendered label is the fixed fallback. -/
theorem aiBest_noMatch_fallback (results : List PlantRecommendation)
    (best : AIChosenPlant) (h : ∀ p ∈ results, p.plant_id ≠ best.plant_id) :
    chosenPlantLabel results best = "Bilinmeyen bitki" := by
  have hnone : results.find? (fun p => p.plant_id == best.plant_id) = none := by
    rw [List.find?_eq_none]
    intro p hp
    simpa using h p hp
  simp [chosenPlantLabel, hnone]

/-- Witness for C9 at a one-element result list and a non-matching id. -/
theorem aiBest_noMatch_fallback_witness :
    chosenPlantLabel [⟨1, "Gul", "Rosa", "Uygun", 80, "low", "", ⟨1, 1, 1, 1, 1, 1⟩⟩]
      ⟨99, "because", "ai"⟩ = "Bilinmeyen bitki" :=
  aiBest_noMatch_fallback _ _ (by decide)

/-- C10: the city merged from a geocode response is the first non-empty
field in the fixed priority order state, city, province, region. -/
theorem province_priority (a : NominatimAddress) :
    provinceOf a =
      firstNonEmpty [a.state.getD "", a.city.getD "", a.province.getD "",
        a.region.getD ""] := by
  simp [provinceOf, jsOr, firstNonEmpty]

/-- C1: the request body of the delayed auto-fetch is built from the form
captured when the geocode effect ran, not from the merged form state, so
an interleaved user edit makes the dispatched body differ from the
displayed form: with the initial form, an edit of the soil type to clay
during the geocode flight, and a resolution to Izmir/Turkey, the
auto-fetch body and the merged form disagree. -/
theorem autoFetch_staleClosure_mismatch :
    autoFetchBody initialForm "Izmir" "Turkey" ≠
      mergeLocation (applyEdit initialForm (.setSoil .clay)) "Izmir" "Turkey" := by
  intro h
  have h2 := congrArg RecommendationRequest.soil_type h
  simp [autoFetchBody, mergeLocation, applyEdit, initialForm] at h2

/-- C2: from any reachable state of the geocode subsystem, a late
response of a cancelled request changes nothing, at most one geocode
request is in flight, and a new map click cancels the in-flight
request. -/
theorem geocode_cancel_supersede (tr : List GeoEvent) (id : Nat) (o : GeoOutcome)
    (pos : Coord) (hab : (runGeo tr).geoStatus id = .aborted) :
    geoRespond (runGeo tr) id o = runGeo tr ∧
    (∀ i j, (runGeo tr).geoStatus i = .inflight →
      (runGeo tr).geoStatus j = .inflight → i = j) ∧
    (∀ i, (runGeo tr).geoStatus i = .inflight →
      (geoSelect (runGeo tr) pos).geoStatus i = .aborted) := by
  have hinv : GeoInv (runGeo tr) := geoInv_run tr
  refine ⟨?_, ?_, ?_⟩
  · have hne : ¬((runGeo tr).geoStatus id = .inflight) := by
      rw [hab]; decide
    unfold geoRespond
    rw [if_neg hne]
  · intro i j hi hj
    have h1 := hinv i hi
    have h2 := hinv j hj
    omega
  · intro i hi
    have hii := hinv i hi
    have hne : ¬(i = (runGeo tr).nextGeoId) := by omega
    simp only [geoSelect]
    rw [if_neg hne, if_pos ⟨hii, hi⟩]

/-- Witness for C2: two successive map clicks leave the first request
aborted, and a late response for it is ignored. -/
theorem geocode_cancel_supersede_witness :
    (runGeo [GeoEvent.select (0, 0), GeoEvent.select (1, 1)]).geoStatus 0 =
        .aborted ∧
    geoRespond (runGeo [GeoEvent.select (0, 0), GeoEvent.select (1, 1)]) 0
        (.ok ⟨none, none, none, none, some "Turkey"⟩) =
      runGeo [GeoEvent.select (0, 0), GeoEvent.select (1, 1)] := by
  have hab : (runGeo [GeoEvent.select (0, 0), GeoEvent.select (1, 1)]).geoStatus 0 =
      .aborted := rfl
  exact ⟨hab,
    (geocode_cancel_supersede [GeoEvent.select (0, 0), GeoEvent.select (1, 1)] 0
      (.ok ⟨none, none, none, none, some "Turkey"⟩) (2, 2) hab).1⟩

end Bitki
